import Mathlib

/-!
Verification model of the document-viewing widget `src/ui/documentwidget.c`
(response-to-document state machine and scrollable rendering pipeline).

Text handled by the widget is modelled as `List Char` so that every string
operation is a structurally recursive function that the kernel can evaluate.
External collaborators (URL resolution, charset transcoding) are passed in as
explicit function parameters (`Ext`), mirroring the spec's collaborator
interfaces.
-/

namespace Lagrange

/-- Character-list representation of the C byte strings (iString / iRangecc). -/
abbrev Str := List Char

/-- Convenience conversion from a Lean string literal to the model's `Str`. -/
def str (s : String) : Str := s.data

/-- Lower-casing used by `lower_String` (ASCII case folding). -/
def toLowerStr (s : Str) : Str := s.map Char.toLower

/-- Case-insensitive equality, as `equalCase_Rangecc` of the_Foundation. -/
def equalCase (a b : Str) : Bool := toLowerStr a == toLowerStr b

/-- Whitespace test used by trimming. -/
def isSpaceChar (c : Char) : Bool := c == ' ' || c == '\t' || c == '\n' || c == '\r'

/-- Trimming of leading and trailing whitespace, as `trim_Rangecc`. -/
def trimStr (s : Str) : Str :=
  ((s.dropWhile isSpaceChar).reverse.dropWhile isSpaceChar).reverse

/-- Prefix test, as `startsWith_Rangecc` / `startsWith_String`. -/
def startsWithStr (pre s : Str) : Bool := pre.isPrefixOf s

/-- Splitting a MIME string at semicolons, as the `nextSplit_Rangecc` loop. -/
def splitSemi (s : Str) : List Str :=
  s.foldr
    (fun c acc =>
      if c = ';' then [] :: acc
      else
        match acc with
        | [] => [[c]]
        | a :: as => (c :: a) :: as)
    [[]]

/-- Modelled from the spec: quote removal around a `charset=` parameter value
(the helper lives in the MIME parameter loop; the C checks the byte just past
the trimmed range, we model the evident intent of stripping paired quotes).
No claim depends on charset parsing. -/
def stripQuotes (s : Str) : Str :=
  if 2 ≤ s.length ∧ s.headI = '"' ∧ s.getLastI = '"' then
    (s.drop 1).dropLast
  else s

/-- Modelled from the spec: `urlScheme_String` from gmutil.c (not in src/);
the scheme is the URL part before the first colon. -/
def urlScheme (url : Str) : Str := url.takeWhile (fun c => c ≠ ':')

/-- Modelled from the spec: the path component produced by `init_Url` from
gmutil.c (not in src/): the part after `scheme://host`, before any query. -/
def urlPath (url : Str) : Str :=
  let afterScheme := (url.dropWhile (fun c => c ≠ ':')).drop 3
  (afterScheme.dropWhile (fun c => c ≠ '/')).takeWhile (fun c => c ≠ '?')

/-- Modelled from the spec: `baseName_Path` (not in src/); the last path
segment ("last path segment, or generic Image/Audio fallback"). -/
def baseName_Path (path : Str) : Str :=
  (path.reverse.takeWhile (fun c => c ≠ '/')).reverse

/-! Request state and status codes. -/

/-- Request state enum of the Document Session (`enum iRequestState`). -/
inductive RequestState where
  | blank
  | fetching
  | receivedPartialResponse
  | ready
deriving DecidableEq, Repr

/-- Status code categories produced by `category_GmStatusCode`. -/
inductive GmStatusCategory where
  | input
  | success
  | redirect
  | temporaryFailure
  | permanentFailure
  | clientCertificate
  | unknown
deriving DecidableEq, Repr

/-- Modelled from the spec: `enum iGmStatusCode` from gmutil.h (not in src/).
A protocol code is abstracted by its category, whether the error table has an
entry for it (`isDefined_GmError`), and whether it is the sensitive-input
code; the synthetic codes used by this widget as error-page identities are
explicit constructors. -/
inductive GmStatusCode where
  | noStatus
  | protocol (cat : GmStatusCategory) (defined : Bool) (sensitive : Bool)
  | invalidRedirect
  | tooManyRedirects
  | schemeChangeRedirect
  | unsupportedMimeType
  | tlsFailure
  | failedToOpenFile
  | certificateNotValid
  | slowDown
  | temporaryFailureCode
  | permanentFailureCode
  | unknownStatusCode
deriving DecidableEq, Repr

/-- Category of a status code (`category_GmStatusCode`); the synthetic
internal codes fall outside the protocol ranges. -/
def category_GmStatusCode : GmStatusCode → GmStatusCategory
  | .protocol cat _ _ => cat
  | _ => .unknown

/-- Success test (`isSuccess_GmStatusCode`). -/
def isSuccess_GmStatusCode (c : GmStatusCode) : Bool :=
  category_GmStatusCode c == .success

/-- Whether the error table defines a message for the code
(`isDefined_GmError`); the widget's synthetic codes all have entries. -/
def isDefined_GmError : GmStatusCode → Bool
  | .noStatus => false
  | .protocol _ defined _ => defined
  | _ => true

/-- Whether the code is the sensitive-input status
(`statusCode == sensitiveInput_GmStatusCode`). -/
def isSensitiveInput : GmStatusCode → Bool
  | .protocol _ _ sensitive => sensitive
  | _ => false

/-! Responses, requests, the document, and the widget. -/

/-- Response data held by the request (`iGmResponse`). -/
structure GmResponse where
  statusCode : GmStatusCode
  meta : Str
  body : Str
  whenTime : Nat
  certFlags : Nat
deriving DecidableEq, Repr

/-- The in-flight request as seen by the widget (`iGmRequest`):
`status_GmRequest`, `lockResponse_GmRequest`, `isFinished_GmRequest`. -/
structure GmRequest where
  status : GmStatusCode
  resp : GmResponse
  finished : Bool
deriving DecidableEq, Repr

/-- Document source format (`enum iGmDocumentFormat`), `undefined` is
represented by `Option.none` at use sites. -/
inductive GmDocumentFormat where
  | plainText
  | gemini
deriving DecidableEq, Repr

/-- Inline media registered for media id 1 by `setData_Media`; `incomplete`
records the partial-data flag. -/
structure MediaData where
  mime : Str
  payload : Str
  incomplete : Bool
deriving DecidableEq, Repr

/-- The laid-out document (collaborator `iGmDocument`), reduced to the fields
the state machine reads and writes; `layoutGen` counts layout (re)builds
(`setSource_GmDocument` / `redoLayout_GmDocument`). -/
structure GmDocument where
  url : Str
  source : Str
  format : GmDocumentFormat
  bannerEnabled : Bool
  themeSeed : Str
  media : Option MediaData
  layoutGen : Nat
deriving DecidableEq, Repr

/-- Modelled from the spec: the layout engine collaborator's `reset()`
(`reset_GmDocument`): drops the current content and media wholesale. -/
def reset_GmDocument (doc : GmDocument) : GmDocument :=
  { doc with source := [], media := none, layoutGen := doc.layoutGen + 1 }

/-- The Document Session state of `iDocumentWidget` restricted to the fields
the verified claims touch. Animated values are modelled by their target
values; render-cache and hover state are presentation details out of scope. -/
structure DocumentWidget where
  state : RequestState
  url : Str
  redirectCount : Nat
  request : Option GmRequest
  doc : GmDocument
  sourceMime : Str
  sourceTime : Nat
  sourceContent : Str
  certFlags : Nat
  scrollY : Int
  sideOpacity : Int
  selectMark : Option (Nat × Nat)
  foundMark : Option (Nat × Nat)
  wideRunOffsets : List Int
  isActiveDoc : Bool
deriving DecidableEq, Repr

/-- Observable effects emitted while processing a response (dialog creation,
posted commands, rendered error pages). -/
inductive DocEvent where
  | inputDialog (prompt : Str) (sensitive : Bool)
  | visitUrl (url : Str)
  | openRedirect (count : Nat) (url : Str)
  | errorPage (code : GmStatusCode) (meta : Option Str)
deriving DecidableEq, Repr

/-- External collaborator functions (gmutil.c / the_Foundation, not in src/):
URL resolution (`absoluteUrl_String`) and charset transcoding
(`decode_Block`). -/
structure Ext where
  absoluteUrl : Str → Str → Str
  decodeBlock : Str → Str → Str

/-! Widget operations translated from documentwidget.c. -/

/-- Clearing of the wide-run horizontal offsets and their animation
(`resetWideRuns_DocumentWidget_`, lines 278-283). -/
def resetWideRuns_DocumentWidget (d : DocumentWidget) : DocumentWidget :=
  { d with wideRunOffsets := [] }

/-- Trust bookkeeping from the response (`updateTrust_DocumentWidget_`,
lines 942-965); the navbar lock indicator it also refreshes is external UI. -/
def updateTrust_DocumentWidget (d : DocumentWidget) (response : GmResponse) : DocumentWidget :=
  { d with certFlags := response.certFlags }

/-- Modelled from the spec: `urlHost_String` from gmutil.c (not in src/);
the host part between the scheme separator and the next slash. -/
def urlHost (url : Str) : Str :=
  (((url.dropWhile (fun c => c ≠ ':')).drop 3).takeWhile (fun c => c ≠ '/'))

/-- Theme seeding from the URL host (`updateTheme_DocumentWidget_`,
lines 743-752); the user-name branch and the timestamp buffer are
presentation details. -/
def updateTheme_DocumentWidget (d : DocumentWidget) : DocumentWidget :=
  { d with doc := { d.doc with themeSeed := urlHost d.url } }

/-- The uniform "set source" entry point (`setSource_DocumentWidget_`,
lines 725-741): re-targets the document at the widget URL, rebuilds the
layout from the new source, and drops the marks; window title, outline and
render-cache refreshes are presentation details. -/
def setSource_DocumentWidget (d : DocumentWidget) (source : Str) : DocumentWidget :=
  { d with
    doc := { d.doc with url := d.url, source := source, layoutGen := d.doc.layoutGen + 1 }
    foundMark := none
    selectMark := none }

/-- Modelled from the spec: the error table `get_GmError` lives in gmutil.c
(not in src/); each code has an icon, a title and an info text ("a
synthesized error page with an icon, title, and human-readable detail").
The model gives each code a distinct title line. -/
def errorTitle : GmStatusCode → Str
  | .noStatus => str "No Status"
  | .protocol cat defined _ =>
      str "Protocol Error " ++ (if defined then str "D" else str "U")
        ++ (match cat with
            | .input => str "1"
            | .success => str "2"
            | .redirect => str "3"
            | .temporaryFailure => str "4"
            | .permanentFailure => str "5"
            | .clientCertificate => str "6"
            | .unknown => str "0")
  | .invalidRedirect => str "Invalid Redirect"
  | .tooManyRedirects => str "Too Many Redirects"
  | .schemeChangeRedirect => str "Changing Scheme"
  | .unsupportedMimeType => str "Unsupported Content Type"
  | .tlsFailure => str "Network/TLS Failure"
  | .failedToOpenFile => str "Failed to Open File"
  | .certificateNotValid => str "Invalid Certificate"
  | .slowDown => str "Slow Down"
  | .temporaryFailureCode => str "Temporary Failure"
  | .permanentFailureCode => str "Permanent Failure"
  | .unknownStatusCode => str "Unknown Status Code"

/-- Source text of a synthesized error page (`showErrorPage_DocumentWidget_`,
lines 756-792): heading line from the error table, then a code-specific
suffix built from the meta string when one is given. -/
def errorPageSource (code : GmStatusCode) (meta : Option Str) : Str :=
  let src := str "# " ++ errorTitle code ++ str "\n"
  match meta with
  | none => src
  | some m =>
    match code with
    | .schemeChangeRedirect => src ++ str "\n=> " ++ m ++ str "\n"
    | .tooManyRedirects => src ++ str "\n=> " ++ m ++ str "\n"
    | .tlsFailure => src ++ str "\n\n>" ++ m ++ str "\n"
    | .failedToOpenFile => src ++ str "\n\n" ++ m
    | .certificateNotValid => src ++ str "\n\n" ++ m
    | .unsupportedMimeType =>
        src ++ str "\n```\n" ++ m ++ str "\n```\nYou can save it as a file to your Downloads folder."
    | .slowDown => src ++ str "\n\nWait " ++ m ++ str " seconds before your next request."
    | _ => src

/-- Rendering of a synthesized error page (`showErrorPage_DocumentWidget_`,
lines 754-802): site banner disabled only for a TLS failure with data,
gemini format, source routed through the uniform entry point, scroll and
side opacity reset, wide-run offsets cleared, state forced to `ready`. -/
def showErrorPage_DocumentWidget (d : DocumentWidget) (code : GmStatusCode)
    (meta : Option Str) : DocumentWidget × List DocEvent :=
  let useBanner := !(meta.isSome && code == .tlsFailure)
  let src := errorPageSource code meta
  let d := { d with doc := { d.doc with bannerEnabled := useBanner, format := .gemini } }
  let d := setSource_DocumentWidget d src
  let d := updateTheme_DocumentWidget d
  let d := { d with scrollY := 0, sideOpacity := 0 }
  let d := resetWideRuns_DocumentWidget d
  ({ d with state := .ready }, [.errorPage code meta])

/-! Content decoding (`updateDocument_DocumentWidget_`, lines 818-921). -/

/-- Local variables mutated by the MIME parameter loop of
`updateDocument_DocumentWidget_` (lines 840-903): the recognized document
format (`none` is `undefined_GmDocumentFormat`), the source MIME string, the
pending source text, the set-source flag, the declared charset, plus the
media registry and the layout/refresh effects of the loop body. -/
structure MimeLoopState where
  docFormat : Option GmDocumentFormat
  sourceMime : Str
  pending : Str
  setSource : Bool
  charset : Str
  media : Option MediaData
  redoLayoutCount : Nat
  refreshCount : Nat
deriving DecidableEq, Repr

/-- Derived link title of the synthesized one-line media document
(lines 864-871): last path segment of the URL, else "Image"/"Audio" by the
full MIME string. -/
def mediaLinkTitle (mimeStr url : Str) : Str :=
  let fallback := if startsWithStr (str "image/") mimeStr then str "Image" else str "Audio"
  if urlPath url ≠ [] then baseName_Path (urlPath url) else fallback

/-- The one-line document consisting of a single link to self (line 872). -/
def selfLinkSource (url title : Str) : Str :=
  str "=> " ++ url ++ str " " ++ title ++ str "\n"

/-- One iteration of the MIME parameter loop (lines 846-903): recognizes
`text/plain`, `text/gemini`, `image/*`, `audio/*` and `charset=` segments.
Audio materializes on the initial update and is refreshed in place on later
updates; an image materializes only once the request is finished, otherwise
the pending source is cleared. -/
def mimeSegmentStep (url mimeStr body : Str) (isInitialUpdate isRequestFinished : Bool)
    (st : MimeLoopState) (seg : Str) : MimeLoopState :=
  let param := trimStr seg
  if param == str "text/plain" then
    { st with docFormat := some .plainText, sourceMime := param }
  else if param == str "text/gemini" then
    { st with docFormat := some .gemini, sourceMime := param }
  else if startsWithStr (str "image/") param || startsWithStr (str "audio/") param then
    let isAudio := startsWithStr (str "audio/") param
    let st := { st with docFormat := some GmDocumentFormat.gemini, sourceMime := param }
    if (isAudio && isInitialUpdate) || (!isAudio && isRequestFinished) then
      { st with
        pending := selfLinkSource url (mediaLinkTitle mimeStr url)
        media := some { mime := mimeStr, payload := body, incomplete := !isRequestFinished }
        redoLayoutCount := st.redoLayoutCount + 1 }
    else if isAudio && !isInitialUpdate then
      { st with
        media := some { mime := mimeStr, payload := body, incomplete := !isRequestFinished }
        refreshCount := st.refreshCount + 1
        setSource := false }
    else
      { st with pending := [] }
  else if startsWithStr (str "charset=") param then
    { st with charset := stripQuotes (trimStr (param.drop 8)) }
  else st

/-- Whether the fetch is complete from the widget's point of view
(`!d->request || isFinished_GmRequest(d->request)`, line 823). -/
def isRequestFinished (d : DocumentWidget) : Bool :=
  match d.request with
  | none => true
  | some req => req.finished

/-- Content decode and document (re)build
(`updateDocument_DocumentWidget_`, lines 818-921). A no-op once the state is
`ready`; input-category responses change nothing; a success response runs the
MIME parameter loop and either renders the unsupported-MIME error page, or
installs the decoded (possibly transcoded) source when the set-source flag
survived the loop; other categories set the raw body as the source. -/
def updateDocument_DocumentWidget (ext : Ext) (d : DocumentWidget) (response : GmResponse)
    (isInitialUpdate : Bool) : DocumentWidget × List DocEvent :=
  if d.state = .ready then
    (d, [])
  else
    let finished := isRequestFinished d
    let statusCode := response.statusCode
    if category_GmStatusCode statusCode ≠ .input then
      let d := if d.isActiveDoc then updateTheme_DocumentWidget d else d
      let d := { d with sourceMime := [], sourceTime := response.whenTime }
      let pending := response.body
      if isSuccess_GmStatusCode statusCode then
        let mimeStr := toLowerStr response.meta
        let d := { d with sourceMime := mimeStr }
        let st0 : MimeLoopState :=
          { docFormat := none, sourceMime := d.sourceMime, pending := pending,
            setSource := true, charset := str "utf-8", media := d.doc.media,
            redoLayoutCount := 0, refreshCount := 0 }
        let st := (splitSemi mimeStr).foldl
          (mimeSegmentStep d.url mimeStr response.body isInitialUpdate finished) st0
        match st.docFormat with
        | none => showErrorPage_DocumentWidget d .unsupportedMimeType (some response.meta)
        | some fmt =>
          let d := { d with
            sourceMime := st.sourceMime
            doc := { d.doc with
              format := fmt
              media := st.media
              layoutGen := d.doc.layoutGen + st.redoLayoutCount } }
          let out :=
            if !(equalCase st.charset (str "utf-8")) then
              ext.decodeBlock st.charset st.pending
            else st.pending
          if st.setSource then (setSource_DocumentWidget d out, []) else (d, [])
      else
        (setSource_DocumentWidget d pending, [])
    else
      (d, [])

/-! Response classification (`checkResponse_DocumentWidget_`, lines 1122-1215). -/

/-- Prompt text of the input dialog (lines 1140-1148): the response meta when
non-empty, else a generic prompt naming the URL path. -/
def inputPrompt (url meta : Str) : Str :=
  if meta = [] then str "Please enter input for " ++ urlPath url ++ str ":" else meta

/-- Response classification and dispatch
(`checkResponse_DocumentWidget_`, lines 1122-1215). With no request or no
status yet, nothing happens. While `fetching`, the state advances to
`receivedPartialResponse` and the status category selects: input dialog,
content decode, redirect handling (empty target, redirect bound, scheme
comparison), or an error page. While `receivedPartialResponse`, only further
success updates re-decode. -/
def checkResponse_DocumentWidget (ext : Ext) (d : DocumentWidget) :
    DocumentWidget × List DocEvent :=
  match d.request with
  | none => (d, [])
  | some request =>
    let statusCode := request.status
    if statusCode = .noStatus then
      (d, [])
    else
      let resp := request.resp
      if d.state = .fetching then
        let d := { d with state := .receivedPartialResponse }
        let d := updateTrust_DocumentWidget d resp
        let d := { d with sideOpacity := 0 }
        match category_GmStatusCode statusCode with
        | .input =>
            (d, [.inputDialog (inputPrompt d.url resp.meta) (isSensitiveInput statusCode)])
        | .success =>
            let d := { d with scrollY := 0, doc := reset_GmDocument d.doc }
            let d := resetWideRuns_DocumentWidget d
            updateDocument_DocumentWidget ext d resp true
        | .redirect =>
            if resp.meta = [] then
              showErrorPage_DocumentWidget d .invalidRedirect none
            else
              let dstUrl := ext.absoluteUrl d.url resp.meta
              let res :=
                if 5 ≤ d.redirectCount then
                  showErrorPage_DocumentWidget d .tooManyRedirects (some dstUrl)
                else if equalCase (urlScheme dstUrl) (urlScheme d.url) then
                  (d, [.visitUrl d.url, .openRedirect (d.redirectCount + 1) dstUrl])
                else
                  showErrorPage_DocumentWidget d .schemeChangeRedirect (some dstUrl)
              ({ res.1 with request := none }, res.2)
        | _ =>
            if isDefined_GmError statusCode then
              showErrorPage_DocumentWidget d statusCode (some resp.meta)
            else if category_GmStatusCode statusCode = .temporaryFailure then
              showErrorPage_DocumentWidget d .temporaryFailureCode (some resp.meta)
            else if category_GmStatusCode statusCode = .permanentFailure then
              showErrorPage_DocumentWidget d .permanentFailureCode (some resp.meta)
            else
              showErrorPage_DocumentWidget d .unknownStatusCode (some resp.meta)
      else if d.state = .receivedPartialResponse then
        if category_GmStatusCode statusCode = .success then
          updateDocument_DocumentWidget ext d resp false
        else
          (d, [])
      else
        (d, [])

/-! Cross-thread notification coalescing
(`requestUpdated_DocumentWidget_`, lines 285-291, and the
`document.request.updated` handler, lines 1596-1606). -/

/-- The shared flag and the stream of enqueued re-check commands: the flag is
`d->isRequestUpdated`, `postedUpdates` counts
`postCommand "document.request.updated"` calls. -/
structure RequestUpdateChannel where
  isRequestUpdated : Bool
  postedUpdates : Nat
deriving DecidableEq, Repr

/-- One background notification (`requestUpdated_DocumentWidget_`,
lines 285-291): atomically exchange the flag to true; post the re-check
command only when the flag was previously clear. -/
def requestUpdated_DocumentWidget (s : RequestUpdateChannel) : RequestUpdateChannel :=
  let wasUpdated := s.isRequestUpdated
  let s := { s with isRequestUpdated := true }
  if wasUpdated then s else { s with postedUpdates := s.postedUpdates + 1 }

/-- A burst of `n` notifications delivered before the UI thread runs. -/
def notifyBurst : Nat → RequestUpdateChannel → RequestUpdateChannel
  | 0, s => s
  | n + 1, s => notifyBurst n (requestUpdated_DocumentWidget s)

/-- The UI thread dequeues the command and clears the flag at the end of the
`document.request.updated` handler (line 1604). -/
def processRequestUpdate (s : RequestUpdateChannel) : RequestUpdateChannel :=
  { s with isRequestUpdated := false }

/-! Scroll clamping (`smoothScroll_DocumentWidget_`, lines 1028-1060, and
`scrollMax_DocumentWidget_`, lines 377-380). -/

/-- Maximum scroll position (`scrollMax_DocumentWidget_`, lines 377-380):
document height minus widget height plus the margin adjustment (one page
margin with a site banner, two without). -/
def scrollMax_DocumentWidget (docHeight boundsHeight pageMargin gapUI : Int)
    (hasSiteBanner : Bool) : Int :=
  docHeight - boundsHeight + (if hasSiteBanner then 1 else 2) * pageMargin * gapUI

/-- Destination computed by `smoothScroll_DocumentWidget_` (lines 1037-1047):
current target plus offset, floored at 0, then capped at `scrollMax` when
that is positive, else forced to 0. -/
def smoothScrollDest (currentTarget offset scrollMax : Int) : Int :=
  let destY := currentTarget + offset
  let destY := if destY < 0 then 0 else destY
  if 0 < scrollMax then min destY scrollMax else 0

/-! Wide-block horizontal scrolling
(`scrollWideBlock_DocumentWidget_`, lines 1073-1120). -/

/-- Clamping as the_Foundation's `iClamp` (lower bound checked first). -/
def iClamp (i low high : Int) : Int :=
  if i < low then low else if i > high then high else i

/-- Widest visual run of the pre-block (lines 1084-1087): fold of `iMax`
over the contained runs' visible-bound widths, starting from 0. -/
def maxRunWidth (widths : List Int) : Int := widths.foldl max 0

/-- Maximum horizontal offset of a wide pre-block (line 1088). -/
def wideMaxOffset (maxWidth documentWidth pageMarginGap : Int) : Int :=
  maxWidth - documentWidth + pageMarginGap

/-- Offset update of one `scrollWideBlock_DocumentWidget_` call for the
matched block (lines 1075-1077 and 1094): a zero delta returns early, any
other delta is applied and clamped into `[0, maxOffset]`. -/
def scrollWideBlockStep (maxOffset offset delta : Int) : Int :=
  if delta = 0 then offset else iClamp (offset + delta) 0 maxOffset

/-- Stored offset after a sequence of scroll deltas, starting from the
zero-initialized offset array entry. -/
def scrollWideBlockRun (maxOffset : Int) (deltas : List Int) : Int :=
  deltas.foldl (scrollWideBlockStep maxOffset) 0

/-! Selection normalization (the `copy` handler, lines 1551-1567, and
`fillRange_DrawContext_`, lines 2444-2485). Source locations are modelled as
indices into the document source. -/

/-- Range membership as the_Foundation's `contains_Range` on `[start, end)`. -/
def containsLoc (rangeStart rangeEnd loc : Nat) : Bool :=
  rangeStart ≤ loc && loc < rangeEnd

/-- The `copy` command handler (lines 1551-1563): with a selection the
endpoints are swapped into ascending order and that range of the source is
copied; with no selection the full source is copied. -/
def copyCommand (source : Str) (selectMark : Option (Nat × Nat)) : Str :=
  match selectMark with
  | some mark =>
    let mark := if mark.1 > mark.2 then (mark.2, mark.1) else mark
    (source.drop mark.1).take (mark.2 - mark.1)
  | none => source

/-- The run fields read by `fillRange_DrawContext_`: the text range, font,
visible-bound width, link id and the decoration flag. -/
structure GmRunModel where
  textStart : Nat
  textEnd : Nat
  font : Nat
  visWidth : Int
  linkId : Nat
  isDecoration : Bool
deriving DecidableEq, Repr

/-- Highlight geometry produced by `fillRange_DrawContext_` (lines
2444-2485) for one run: the optional `(x, w)` band filled over the run, the
optional full fill of a link-decoration run whose URL range holds the mark,
and the propagated inside-the-mark flag. `advance font a b` stands for the
external text-metrics call `advanceRange_Text`. -/
def fillRange_DrawContext (advance : Nat → Nat → Nat → Int) (linkUrlRange : Nat × Nat)
    (run : GmRunModel) (mark : Nat × Nat) (isInside : Bool) :
    Option (Int × Int) × Bool × Bool :=
  let mark := if mark.1 > mark.2 then (mark.2, mark.1) else mark
  let (band, inside) :=
    if (!isInside && (containsLoc run.textStart run.textEnd mark.1 || mark.1 == run.textEnd))
        || isInside then
      let x : Int := if !isInside then advance run.font run.textStart mark.1 else 0
      let w : Int := run.visWidth - x
      let (w, inside) :=
        if containsLoc run.textStart run.textEnd mark.2 || run.textEnd == mark.2 then
          (if !isInside then advance run.font mark.1 mark.2
           else advance run.font run.textStart mark.2,
           false)
        else
          (w, true)
      let w := if w > run.visWidth - x then run.visWidth - x else w
      (some (x, w), inside)
    else
      (none, isInside)
  let decorationFilled :=
    run.linkId ≠ 0 && run.isDecoration
      && containsLoc linkUrlRange.1 linkUrlRange.2 mark.1
      && (containsLoc linkUrlRange.1 linkUrlRange.2 mark.2 || linkUrlRange.2 == mark.2)
  (band, decorationFilled, inside)

/-! Event observations used by concrete counterexamples. -/

/-- Whether an event renders the too-many-redirects error page. -/
def isTooManyRedirectsPage : DocEvent → Bool
  | .errorPage .tooManyRedirects _ => true
  | _ => false

/-- Whether an event auto-follows a redirect by posting an open command. -/
def isOpenRedirectEvent : DocEvent → Bool
  | .openRedirect _ _ => true
  | _ => false

/-- Whether any event of the list renders the too-many-redirects page. -/
def hasTooManyRedirectsPage (evs : List DocEvent) : Bool :=
  evs.any isTooManyRedirectsPage

/-- Whether any event of the list auto-follows a redirect. -/
def hasOpenRedirect (evs : List DocEvent) : Bool :=
  evs.any isOpenRedirectEvent

/-! Concrete fixtures used by witnesses and counterexamples. -/

/-- Collaborators that resolve a relative URL to itself and transcode
byte-identically; used for concrete instantiations. -/
def ext0 : Ext := { absoluteUrl := fun _ m => m, decodeBlock := fun _ s => s }

/-- An empty document fixture. -/
def doc0 : GmDocument :=
  { url := [], source := [], format := .gemini, bannerEnabled := true,
    themeSeed := [], media := none, layoutGen := 0 }

/-- A freshly created widget fixture pointed at a URL. -/
def widget0 : DocumentWidget :=
  { state := .blank, url := str "gemini://example.org/", redirectCount := 0,
    request := none, doc := doc0, sourceMime := [], sourceTime := 0,
    sourceContent := [], certFlags := 0, scrollY := 0, sideOpacity := 0,
    selectMark := none, foundMark := none, wideRunOffsets := [],
    isActiveDoc := false }

/-- A success response fixture with the given MIME, body and timestamp. -/
def successResponse (meta body : Str) (t : Nat) : GmResponse :=
  { statusCode := .protocol .success true false, meta := meta, body := body,
    whenTime := t, certFlags := 0 }

/-- An input-category (status 1x) request fixture with a prompt in meta. -/
def inputRequest : GmRequest :=
  { status := .protocol .input true false,
    resp := { statusCode := .protocol .input true false, meta := str "Enter search terms",
              body := [], whenTime := 0, certFlags := 0 },
    finished := false }

/-- A widget fetching a URL whose response asks for input. -/
def inputWidget : DocumentWidget :=
  { widget0 with state := .fetching, request := some inputRequest }

/-- A redirect response fixture with an empty target in meta. -/
def emptyRedirectRequest : GmRequest :=
  { status := .protocol .redirect true false,
    resp := { statusCode := .protocol .redirect true false, meta := [], body := [],
              whenTime := 0, certFlags := 0 },
    finished := true }

/-- A widget at the redirect bound receiving an empty redirect target. -/
def emptyRedirectWidget : DocumentWidget :=
  { widget0 with state := .fetching, redirectCount := 5, request := some emptyRedirectRequest }

/-- A redirect response fixture whose target keeps the gemini scheme. -/
def sameSchemeRedirectRequest : GmRequest :=
  { status := .protocol .redirect true false,
    resp := { statusCode := .protocol .redirect true false,
              meta := str "gemini://other.example.com/", body := [], whenTime := 0,
              certFlags := 0 },
    finished := true }

/-- A widget at the redirect bound receiving a same-scheme redirect. -/
def sameSchemeAtBoundWidget : DocumentWidget :=
  { widget0 with state := .fetching, redirectCount := 5,
                 request := some sameSchemeRedirectRequest }

/-- A redirect response fixture whose target changes the scheme to https. -/
def crossSchemeRedirectResponse : GmResponse :=
  { statusCode := .protocol .redirect true false, meta := str "https://other.example.com/",
    body := [], whenTime := 0, certFlags := 0 }

/-- A widget fixture whose redirect counter sits above the bound. -/
def boundedRedirectWidget : DocumentWidget :=
  { widget0 with redirectCount := 6 }

/-! Claim theorems. -/

/-- C10: once the Request State is `Ready`, processing a further response
update is a no-op: `updateDocument` returns immediately, leaving the widget
(laid-out document, source MIME, source timestamp, media registry) unchanged
and emitting nothing. Stated over an arbitrary widget forced into the
`ready` state. -/
theorem C10_updateDocument_noop_when_ready (ext : Ext) (d : DocumentWidget)
    (response : GmResponse) (isInitialUpdate : Bool) :
    updateDocument_DocumentWidget ext { d with state := .ready } response isInitialUpdate
      = ({ d with state := .ready }, []) := rfl

/-- C4: a burst of `m + 1` response-update notifications delivered before
the UI thread clears the pending flag enqueues exactly one
`document.request.updated` re-check: the first notification sets the flag
and posts the command, and each further notification posts nothing. -/
theorem C4_notification_burst_coalesced (m : Nat) :
    (notifyBurst (m + 1) { isRequestUpdated := false, postedUpdates := 0 }).postedUpdates = 1 ∧
    (notifyBurst (m + 1) { isRequestUpdated := false, postedUpdates := 0 }).isRequestUpdated
      = true := by
  have flagged : ∀ (n : Nat) (k : Nat),
      notifyBurst n { isRequestUpdated := true, postedUpdates := k }
        = { isRequestUpdated := true, postedUpdates := k } := by
    intro n
    induction n with
    | zero => intro k; rfl
    | succ n ih => intro k; simpa [notifyBurst, requestUpdated_DocumentWidget] using ih k
  have step : notifyBurst (m + 1) { isRequestUpdated := false, postedUpdates := 0 }
      = { isRequestUpdated := true, postedUpdates := 1 } := by
    simpa [notifyBurst, requestUpdated_DocumentWidget] using flagged m 1
  rw [step]
  exact ⟨rfl, rfl⟩

/-- Helper: one wide-block scroll step keeps the offset inside
`[0, maxOffset]` whenever it starts there and the range is nonempty. -/
theorem scrollWideBlockStep_mem (M off delta : Int) (hM : 0 ≤ M) (h0 : 0 ≤ off)
    (h1 : off ≤ M) :
    0 ≤ scrollWideBlockStep M off delta ∧ scrollWideBlockStep M off delta ≤ M := by
  unfold scrollWideBlockStep iClamp
  split_ifs <;> omega

/-- Helper: the wide-block offset invariant is preserved by any fold of
scroll steps. -/
theorem scrollWideBlock_fold_mem (M : Int) (hM : 0 ≤ M) :
    ∀ (deltas : List Int) (off : Int), 0 ≤ off → off ≤ M →
      0 ≤ deltas.foldl (scrollWideBlockStep M) off ∧
      deltas.foldl (scrollWideBlockStep M) off ≤ M
  | [], _, h0, h1 => ⟨h0, h1⟩
  | delta :: ds, off, h0, h1 => by
    have h := scrollWideBlockStep_mem M off delta hM h0 h1
    simpa [List.foldl] using scrollWideBlock_fold_mem M hM ds _ h.1 h.2

/-- C7: for a wide pre-block whose maximum offset (computed from the widest
contained run) is a valid bound, the stored horizontal offset stays inside
`[0, maxOffset]` after any sequence of `scrollWideBlock` calls with
arbitrary deltas, starting from the zero-initialized entry. -/
theorem C7_wide_offset_clamped (widths : List Int) (documentWidth pageMarginGap : Int)
    (deltas : List Int)
    (h : 0 ≤ wideMaxOffset (maxRunWidth widths) documentWidth pageMarginGap) :
    0 ≤ scrollWideBlockRun (wideMaxOffset (maxRunWidth widths) documentWidth pageMarginGap)
          deltas ∧
    scrollWideBlockRun (wideMaxOffset (maxRunWidth widths) documentWidth pageMarginGap) deltas
      ≤ wideMaxOffset (maxRunWidth widths) documentWidth pageMarginGap := by
  exact scrollWideBlock_fold_mem _ h deltas 0 le_rfl h

/-- C7 witness: a block of runs up to 300px wide in a 200px viewport with a
10px margin adjustment has max offset 110, and the deltas
+500, -700, +60, +80 end at offset 110, inside the range. -/
theorem C7_wide_offset_clamped_witness :
    0 ≤ scrollWideBlockRun (wideMaxOffset (maxRunWidth [120, 300, 80]) 200 10)
          [500, -700, 60, 80] ∧
    scrollWideBlockRun (wideMaxOffset (maxRunWidth [120, 300, 80]) 200 10) [500, -700, 60, 80]
      ≤ wideMaxOffset (maxRunWidth [120, 300, 80]) 200 10 :=
  C7_wide_offset_clamped [120, 300, 80] 200 10 [500, -700, 60, 80] (by decide)

/-- C8: with a nonnegative `scrollMax`, the destination computed by
`smoothScroll` always lies in `[0, scrollMax]`, and when the current target
is already `scrollMax`, any further forward scroll (such as a forward
`scroll.page`) leaves the target unchanged. -/
theorem C8_smoothScroll_clamped (docHeight boundsHeight pageMargin gapUI : Int)
    (hasSiteBanner : Bool) (currentTarget offset : Int)
    (h : 0 ≤ scrollMax_DocumentWidget docHeight boundsHeight pageMargin gapUI hasSiteBanner) :
    (0 ≤ smoothScrollDest currentTarget offset
          (scrollMax_DocumentWidget docHeight boundsHeight pageMargin gapUI hasSiteBanner) ∧
     smoothScrollDest currentTarget offset
          (scrollMax_DocumentWidget docHeight boundsHeight pageMargin gapUI hasSiteBanner)
       ≤ scrollMax_DocumentWidget docHeight boundsHeight pageMargin gapUI hasSiteBanner) ∧
    (currentTarget
        = scrollMax_DocumentWidget docHeight boundsHeight pageMargin gapUI hasSiteBanner →
     0 ≤ offset →
     smoothScrollDest currentTarget offset
        (scrollMax_DocumentWidget docHeight boundsHeight pageMargin gapUI hasSiteBanner)
       = scrollMax_DocumentWidget docHeight boundsHeight pageMargin gapUI hasSiteBanner) := by
  generalize scrollMax_DocumentWidget docHeight boundsHeight pageMargin gapUI hasSiteBanner = M
    at h ⊢
  constructor
  · unfold smoothScrollDest
    simp only [min_def]
    split_ifs <;> omega
  · intro hEq hOff
    subst hEq
    unfold smoothScrollDest
    simp only [min_def]
    split_ifs <;> omega

/-- C8 witness: with document height 100, widget height 50, page margin 2
and gap 1 without a site banner, `scrollMax` is 54; a scroll from target 20
by +10 stays in range, and a further +27 from target 54 stays at 54. -/
theorem C8_smoothScroll_clamped_witness :
    (0 ≤ smoothScrollDest 20 10 (scrollMax_DocumentWidget 100 50 2 1 false) ∧
     smoothScrollDest 20 10 (scrollMax_DocumentWidget 100 50 2 1 false)
       ≤ scrollMax_DocumentWidget 100 50 2 1 false) ∧
    smoothScrollDest (scrollMax_DocumentWidget 100 50 2 1 false) 27
        (scrollMax_DocumentWidget 100 50 2 1 false)
      = scrollMax_DocumentWidget 100 50 2 1 false :=
  ⟨(C8_smoothScroll_clamped 100 50 2 1 false 20 10 (by decide)).1,
   (C8_smoothScroll_clamped 100 50 2 1 false (scrollMax_DocumentWidget 100 50 2 1 false) 27
      (by decide)).2 rfl (by decide)⟩

/-- C9: a selection mark given with its start location after its end
location is treated by the `copy` command and by the selection/found-mark
highlight pass exactly as the same mark with its endpoints swapped into
ascending order. -/
theorem C9_selection_order_irrelevant (s e : Nat) (h : e < s) :
    (∀ (source : Str), copyCommand source (some (s, e)) = copyCommand source (some (e, s))) ∧
    (∀ (advance : Nat → Nat → Nat → Int) (linkUrlRange : Nat × Nat) (run : GmRunModel)
        (isInside : Bool),
      fillRange_DrawContext advance linkUrlRange run (s, e) isInside
        = fillRange_DrawContext advance linkUrlRange run (e, s) isInside) := by
  have hgt : s > e := h
  have hngt : ¬ e > s := Nat.lt_asymm h
  constructor
  · intro source
    simp [copyCommand, hgt, hngt]
  · intro advance linkUrlRange run isInside
    simp [fillRange_DrawContext, hgt, hngt]

/-- C9 witness: the reversed mark (4, 1) on a concrete source and run
behaves as the ordered mark (1, 4). -/
theorem C9_selection_order_irrelevant_witness :
    copyCommand (str "hello world") (some (4, 1)) = copyCommand (str "hello world") (some (1, 4)) ∧
    fillRange_DrawContext (fun _ a b => (b : Int) - (a : Int)) (20, 30)
        { textStart := 0, textEnd := 11, font := 1, visWidth := 88, linkId := 0,
          isDecoration := false } (4, 1) false
      = fillRange_DrawContext (fun _ a b => (b : Int) - (a : Int)) (20, 30)
        { textStart := 0, textEnd := 11, font := 1, visWidth := 88, linkId := 0,
          isDecoration := false } (1, 4) false :=
  ⟨(C9_selection_order_irrelevant 4 1 (by decide)).1 (str "hello world"),
   (C9_selection_order_irrelevant 4 1 (by decide)).2 (fun _ a b => (b : Int) - (a : Int)) (20, 30)
     { textStart := 0, textEnd := 11, font := 1, visWidth := 88, linkId := 0,
       isDecoration := false } false⟩

/-- C1 counterexample: an input-category response processed while the state
is `Fetching` leaves the state at `ReceivedPartial`, not `Fetching`: the
claim that the state remains `Fetching` until the prompt is answered fails
at this concrete input. -/
theorem C1_input_keeps_fetching_refuted :
    (checkResponse_DocumentWidget ext0 inputWidget).1.state ≠ .fetching ∧
    (checkResponse_DocumentWidget ext0 inputWidget).1.state = .receivedPartialResponse := by
  decide

/-- C1 amended: when an input-category response is processed while the
Request State is `Fetching`, the state advances to `ReceivedPartial` (not
`Ready`, and not remaining `Fetching`); the widget only presents the input
prompt, and no further transition happens until the user submits or cancels
the prompt. -/
theorem C1_input_transitions_to_receivedPartial (ext : Ext) (d : DocumentWidget)
    (defined sensitive fin : Bool) (resp : GmResponse) :
    checkResponse_DocumentWidget ext
        { d with state := .fetching,
                 request := some { status := .protocol .input defined sensitive,
                                   resp := resp, finished := fin } }
      = ({ d with state := .receivedPartialResponse,
                  request := some { status := .protocol .input defined sensitive,
                                    resp := resp, finished := fin },
                  certFlags := resp.certFlags, sideOpacity := 0 },
         [.inputDialog (inputPrompt d.url resp.meta) sensitive]) := rfl

/-- C2 counterexample: a redirect response with an empty target processed
with the redirect counter at the bound renders the "invalid redirect" error
page, not the "too many redirects" page, so the claim's "regardless of the
target URL (including an empty target)" fails at this concrete input. -/
theorem C2_empty_target_at_redirect_bound_refuted :
    hasTooManyRedirectsPage (checkResponse_DocumentWidget ext0 emptyRedirectWidget).2 = false ∧
    (checkResponse_DocumentWidget ext0 emptyRedirectWidget).2
      = [.errorPage .invalidRedirect none] := by
  decide

/-- C2 amended: every redirect response with a non-empty target processed
while `Fetching` with the redirect counter at least 5 renders the "too many
redirects" error page, regardless of the target URL; an empty target
renders the "invalid redirect" page before the counter is consulted. -/
theorem C2_redirect_bound_nonempty_target (ext : Ext) (d : DocumentWidget)
    (defined sensitive fin : Bool) (resp : GmResponse) (h4 : resp.meta ≠ [])
    (h5 : 5 ≤ d.redirectCount) :
    (checkResponse_DocumentWidget ext
        { d with state := .fetching,
                 request := some { status := .protocol .redirect defined sensitive,
                                   resp := resp, finished := fin } }).2
      = [.errorPage .tooManyRedirects (some (ext.absoluteUrl d.url resp.meta))] ∧
    (checkResponse_DocumentWidget ext
        { d with state := .fetching,
                 request := some { status := .protocol .redirect defined sensitive,
                                   resp := resp, finished := fin } }).1.state = .ready := by
  unfold checkResponse_DocumentWidget
  dsimp only
  rw [if_neg (by simp : ¬ (GmStatusCode.protocol .redirect defined sensitive = .noStatus))]
  rw [if_pos rfl]
  dsimp only [category_GmStatusCode, updateTrust_DocumentWidget]
  rw [if_neg h4, if_pos h5]
  exact ⟨rfl, rfl⟩

/-- C2 witness: a widget with redirect counter 6 receiving a redirect to a
concrete https target renders the too-many-redirects page and ends `ready`. -/
theorem C2_redirect_bound_nonempty_target_witness :
    (checkResponse_DocumentWidget ext0
        { boundedRedirectWidget with
            state := .fetching,
            request := some { status := .protocol .redirect true false,
                              resp := crossSchemeRedirectResponse, finished := true } }).2
      = [.errorPage .tooManyRedirects (some (str "https://other.example.com/"))] ∧
    (checkResponse_DocumentWidget ext0
        { boundedRedirectWidget with
            state := .fetching,
            request := some { status := .protocol .redirect true false,
                              resp := crossSchemeRedirectResponse, finished := true } }).1.state
      = .ready :=
  C2_redirect_bound_nonempty_target ext0 boundedRedirectWidget true false true
    crossSchemeRedirectResponse (by decide) (by decide)

/-- C3 counterexample: a same-scheme redirect processed with the redirect
counter at the bound is not followed automatically (no open command is
posted) but renders the too-many-redirects page instead, so the claim's
unconditional "followed automatically" fails at this concrete input. -/
theorem C3_same_scheme_redirect_refuted_at_bound :
    hasOpenRedirect (checkResponse_DocumentWidget ext0 sameSchemeAtBoundWidget).2 = false ∧
    (checkResponse_DocumentWidget ext0 sameSchemeAtBoundWidget).2
      = [.errorPage .tooManyRedirects (some (str "gemini://other.example.com/"))] := by
  decide

/-- C3 amended: for every non-empty redirect target processed while
`Fetching` with the redirect counter below the bound of 5: when the target
URL's scheme equals the current URL's scheme case-insensitively, the
redirect is followed automatically by posting an open command with the
incremented redirect count and no approval page; when the scheme differs,
the scheme-change approval page is rendered and no open command is posted. -/
theorem C3_redirect_scheme_policy (ext : Ext) (d : DocumentWidget)
    (defined sensitive fin : Bool) (resp : GmResponse) (h4 : resp.meta ≠ [])
    (h5 : d.redirectCount < 5) :
    (equalCase (urlScheme (ext.absoluteUrl d.url resp.meta)) (urlScheme d.url) = true →
      checkResponse_DocumentWidget ext
          { d with state := .fetching,
                   request := some { status := .protocol .redirect defined sensitive,
                                     resp := resp, finished := fin } }
        = ({ d with state := .receivedPartialResponse, request := none,
                    certFlags := resp.certFlags, sideOpacity := 0 },
           [.visitUrl d.url,
            .openRedirect (d.redirectCount + 1) (ext.absoluteUrl d.url resp.meta)])) ∧
    (equalCase (urlScheme (ext.absoluteUrl d.url resp.meta)) (urlScheme d.url) = false →
      (checkResponse_DocumentWidget ext
          { d with state := .fetching,
                   request := some { status := .protocol .redirect defined sensitive,
                                     resp := resp, finished := fin } }).2
        = [.errorPage .schemeChangeRedirect (some (ext.absoluteUrl d.url resp.meta))] ∧
      hasOpenRedirect (checkResponse_DocumentWidget ext
          { d with state := .fetching,
                   request := some { status := .protocol .redirect defined sensitive,
                                     resp := resp, finished := fin } }).2 = false ∧
      (checkResponse_DocumentWidget ext
          { d with state := .fetching,
                   request := some { status := .protocol .redirect defined sensitive,
                                     resp := resp, finished := fin } }).1.state = .ready) := by
  have h5' : ¬ (5 ≤ d.redirectCount) := by omega
  constructor
  · intro heq
    unfold checkResponse_DocumentWidget
    dsimp only
    rw [if_neg (by simp : ¬ (GmStatusCode.protocol .redirect defined sensitive = .noStatus))]
    rw [if_pos rfl]
    dsimp only [category_GmStatusCode, updateTrust_DocumentWidget]
    rw [if_neg h4, if_neg h5', if_pos heq]
  · intro heq
    unfold checkResponse_DocumentWidget
    dsimp only
    rw [if_neg (by simp : ¬ (GmStatusCode.protocol .redirect defined sensitive = .noStatus))]
    rw [if_pos rfl]
    dsimp only [category_GmStatusCode, updateTrust_DocumentWidget]
    rw [if_neg h4, if_neg h5']
    rw [if_neg (by simp [heq] :
      ¬ (equalCase (urlScheme (ext.absoluteUrl d.url resp.meta)) (urlScheme d.url) = true))]
    exact ⟨rfl, rfl, rfl⟩

/-- C3 witness: below the bound, a concrete gemini-to-gemini redirect posts
the open command with count 1, and a concrete gemini-to-https redirect
renders the scheme-change page without posting an open command. -/
theorem C3_redirect_scheme_policy_witness :
    (checkResponse_DocumentWidget ext0
        { widget0 with state := .fetching,
                       request := some { status := .protocol .redirect true false,
                                         resp := sameSchemeRedirectRequest.resp,
                                         finished := true } })
      = ({ widget0 with state := .receivedPartialResponse, request := none,
                        certFlags := 0, sideOpacity := 0 },
         [.visitUrl (str "gemini://example.org/"),
          .openRedirect 1 (str "gemini://other.example.com/")]) ∧
    ((checkResponse_DocumentWidget ext0
        { widget0 with state := .fetching,
                       request := some { status := .protocol .redirect true false,
                                         resp := crossSchemeRedirectResponse,
                                         finished := true } }).2
      = [.errorPage .schemeChangeRedirect (some (str "https://other.example.com/"))] ∧
     hasOpenRedirect (checkResponse_DocumentWidget ext0
        { widget0 with state := .fetching,
                       request := some { status := .protocol .redirect true false,
                                         resp := crossSchemeRedirectResponse,
                                         finished := true } }).2 = false ∧
     (checkResponse_DocumentWidget ext0
        { widget0 with state := .fetching,
                       request := some { status := .protocol .redirect true false,
                                         resp := crossSchemeRedirectResponse,
                                         finished := true } }).1.state = .ready) :=
  ⟨(C3_redirect_scheme_policy ext0 widget0 true false true sameSchemeRedirectRequest.resp
      (by decide) (by decide)).1 (by decide),
   (C3_redirect_scheme_policy ext0 widget0 true false true crossSchemeRedirectResponse
      (by decide) (by decide)).2 (by decide)⟩

/-- Helper: a rendered error page always leaves the state `ready`. -/
theorem showErrorPage_state (d : DocumentWidget) (code : GmStatusCode) (meta : Option Str) :
    (showErrorPage_DocumentWidget d code meta).1.state = .ready := rfl

/-- Helper: a content decode either leaves the request state alone or ends
in `ready` (via the unsupported-MIME error page). -/
theorem updateDocument_state_cases (ext : Ext) (d : DocumentWidget) (response : GmResponse)
    (ini : Bool) :
    (updateDocument_DocumentWidget ext d response ini).1.state = d.state ∨
    (updateDocument_DocumentWidget ext d response ini).1.state = .ready := by
  unfold updateDocument_DocumentWidget
  cases hA : d.isActiveDoc <;> simp only [hA] <;>
    repeat' split
  all_goals
    simp [showErrorPage_DocumentWidget, setSource_DocumentWidget, updateTheme_DocumentWidget,
      resetWideRuns_DocumentWidget]

/-- Helper: decoding from the `receivedPartialResponse` state ends in
`receivedPartialResponse` or `ready`. -/
theorem updateDocument_state_mem (ext : Ext) (D : DocumentWidget) (response : GmResponse)
    (ini : Bool) (h : D.state = .receivedPartialResponse) :
    (updateDocument_DocumentWidget ext D response ini).1.state = .receivedPartialResponse ∨
    (updateDocument_DocumentWidget ext D response ini).1.state = .ready := by
  rcases updateDocument_state_cases ext D response ini with h' | h'
  · rw [h'] at *; exact Or.inl h
  · exact Or.inr h'

/-- Helper: response classification either leaves the state alone or moves
it to `receivedPartialResponse` or `ready`. -/
theorem checkResponse_state_cases (ext : Ext) (d : DocumentWidget) :
    (checkResponse_DocumentWidget ext d).1.state = d.state ∨
    (checkResponse_DocumentWidget ext d).1.state = .receivedPartialResponse ∨
    (checkResponse_DocumentWidget ext d).1.state = .ready := by
  rcases hreq : d.request with _ | req
  · unfold checkResponse_DocumentWidget
    rw [hreq]
    exact Or.inl rfl
  · unfold checkResponse_DocumentWidget
    rw [hreq]
    dsimp only
    by_cases hns : req.status = .noStatus
    · rw [if_pos hns]; exact Or.inl rfl
    · rw [if_neg hns]
      by_cases hf : d.state = .fetching
      · rw [if_pos hf]
        rcases hcat : category_GmStatusCode req.status with _ | _ | _ | _ | _ | _ | _
        · exact Or.inr (Or.inl rfl)
        · exact (updateDocument_state_mem ext _ req.resp true rfl).elim
            (fun h => Or.inr (Or.inl h)) (fun h => Or.inr (Or.inr h))
        · by_cases hm : req.resp.meta = []
          · rw [if_pos hm]; exact Or.inr (Or.inr (showErrorPage_state _ _ _))
          · rw [if_neg hm]
            dsimp only [updateTrust_DocumentWidget]
            by_cases hrc : 5 ≤ d.redirectCount
            · rw [if_pos hrc]; right; right; rfl
            · rw [if_neg hrc]
              by_cases hsch :
                  equalCase (urlScheme (ext.absoluteUrl d.url req.resp.meta)) (urlScheme d.url)
                    = true
              · rw [if_pos hsch]; right; left; rfl
              · rw [if_neg hsch]; right; right; rfl
        · split_ifs <;> (right; right; rfl)
        · split_ifs <;> (right; right; rfl)
        · split_ifs <;> (right; right; rfl)
        · split_ifs <;> (right; right; rfl)
      · rw [if_neg hf]
        by_cases hrp : d.state = .receivedPartialResponse
        · rw [if_pos hrp]
          by_cases hsc : category_GmStatusCode req.status = .success
          · rw [if_pos hsc]
            rcases updateDocument_state_cases ext d req.resp false with h | h
            · exact Or.inl h
            · exact Or.inr (Or.inr h)
          · rw [if_neg hsc]; exact Or.inl rfl
        · rw [if_neg hrp]; exact Or.inl rfl

/-- C5: for every response (any status category), processing a response
update on a widget whose request has been started (state not `Blank`)
leaves the Request State in exactly one of `Fetching`,
`ReceivedPartial` or `Ready`; it never sets the state back to `Blank`. -/
theorem C5_state_never_blank (ext : Ext) (d : DocumentWidget) (h : d.state ≠ .blank) :
    (checkResponse_DocumentWidget ext d).1.state ≠ .blank ∧
    ((checkResponse_DocumentWidget ext d).1.state = .fetching ∨
     (checkResponse_DocumentWidget ext d).1.state = .receivedPartialResponse ∨
     (checkResponse_DocumentWidget ext d).1.state = .ready) := by
  rcases checkResponse_state_cases ext d with h' | h' | h'
  · rw [h']
    cases hs : d.state with
    | blank => exact absurd hs h
    | fetching => exact ⟨by simp, Or.inl rfl⟩
    | receivedPartialResponse => exact ⟨by simp, Or.inr (Or.inl rfl)⟩
    | ready => exact ⟨by simp, Or.inr (Or.inr rfl)⟩
  · rw [h']; exact ⟨by simp, Or.inr (Or.inl rfl)⟩
  · rw [h']; exact ⟨by simp, Or.inr (Or.inr rfl)⟩

/-- C5 witness: a fetching widget with no status yet stays `fetching`, one
of the three non-blank states. -/
theorem C5_state_never_blank_witness :
    (checkResponse_DocumentWidget ext0 { widget0 with state := .fetching }).1.state ≠ .blank ∧
    ((checkResponse_DocumentWidget ext0 { widget0 with state := .fetching }).1.state
        = .fetching ∨
     (checkResponse_DocumentWidget ext0 { widget0 with state := .fetching }).1.state
        = .receivedPartialResponse ∨
     (checkResponse_DocumentWidget ext0 { widget0 with state := .fetching }).1.state
        = .ready) :=
  C5_state_never_blank ext0 { widget0 with state := .fetching } (by decide)

/-- C6: decode asymmetry between audio and image content. An `audio/*`
success response registers the inline media on the initial decode pass even
with a partial body and synthesizes the one-line self-link document; on a
non-initial update the audio data is refreshed in place, without replacing
the document source or re-running layout. An `image/*` response registers
the media and synthesizes the one-line document only once the request is
finished; on a partial update it produces no content (empty source) and
registers nothing. -/
theorem C6_media_decode_asymmetry (ext : Ext) (d : DocumentWidget) (st : GmStatusCode)
    (rsp : GmResponse) (fin ini act : Bool) (body : Str) (t : Nat) :
    ((updateDocument_DocumentWidget ext
        { d with state := .receivedPartialResponse, isActiveDoc := act,
                 request := some { status := st, resp := rsp, finished := fin } }
        (successResponse (str "audio/mpeg") body t) true).1.doc.media
      = some { mime := str "audio/mpeg", payload := body, incomplete := !fin } ∧
     (updateDocument_DocumentWidget ext
        { d with state := .receivedPartialResponse, isActiveDoc := act,
                 request := some { status := st, resp := rsp, finished := fin } }
        (successResponse (str "audio/mpeg") body t) true).1.doc.source
      = selfLinkSource d.url (mediaLinkTitle (str "audio/mpeg") d.url)) ∧
    ((updateDocument_DocumentWidget ext
        { d with state := .receivedPartialResponse, isActiveDoc := act,
                 request := some { status := st, resp := rsp, finished := fin } }
        (successResponse (str "audio/mpeg") body t) false).1.doc.media
      = some { mime := str "audio/mpeg", payload := body, incomplete := !fin } ∧
     (updateDocument_DocumentWidget ext
        { d with state := .receivedPartialResponse, isActiveDoc := act,
                 request := some { status := st, resp := rsp, finished := fin } }
        (successResponse (str "audio/mpeg") body t) false).1.doc.source = d.doc.source ∧
     (updateDocument_DocumentWidget ext
        { d with state := .receivedPartialResponse, isActiveDoc := act,
                 request := some { status := st, resp := rsp, finished := fin } }
        (successResponse (str "audio/mpeg") body t) false).1.doc.layoutGen
      = d.doc.layoutGen) ∧
    ((updateDocument_DocumentWidget ext
        { d with state := .receivedPartialResponse, isActiveDoc := act,
                 request := some { status := st, resp := rsp, finished := true } }
        (successResponse (str "image/png") body t) ini).1.doc.media
      = some { mime := str "image/png", payload := body, incomplete := false } ∧
     (updateDocument_DocumentWidget ext
        { d with state := .receivedPartialResponse, isActiveDoc := act,
                 request := some { status := st, resp := rsp, finished := true } }
        (successResponse (str "image/png") body t) ini).1.doc.source
      = selfLinkSource d.url (mediaLinkTitle (str "image/png") d.url)) ∧
    ((updateDocument_DocumentWidget ext
        { d with state := .receivedPartialResponse, isActiveDoc := act,
                 request := some { status := st, resp := rsp, finished := false } }
        (successResponse (str "image/png") body t) ini).1.doc.media = d.doc.media ∧
     (updateDocument_DocumentWidget ext
        { d with state := .receivedPartialResponse, isActiveDoc := act,
                 request := some { status := st, resp := rsp, finished := false } }
        (successResponse (str "image/png") body t) ini).1.doc.source = []) := by
  cases act <;> cases fin <;> cases ini <;> and_intros <;> rfl

end Lagrange
